import Mathlib

/-!
Verification development for the ad-vista-pro dashboard core: the
client-side table engine (filter, sort, paginate) in
src/components/dashboard/DataTable.tsx, the advanced filter pipeline of
FilterPanel.tsx / handleFiltersChange, the CSV export of
services/exportService.ts, and the simulated live-data feed of
services/mockData.ts (MockDataService).

Modelling conventions:
- JavaScript numbers that the code only adds, subtracts and compares are
  embedded as Int (record fields) or Nat (page counts, indexes).
- Calendar dates are stored in the source as ISO "YYYY-MM-DD" strings and
  compared through `new Date(...)`; since that comparison is exactly the
  chronological order, dates are embedded as Int day numbers.
- `String.prototype.localeCompare` is embedded as code-point comparison
  (`compare` on String); no claim below depends on locale specifics.
- `Array.prototype.sort` with a comparator is, for a consistent
  comparator, the unique stable sort; it is embedded as insertion sort
  over the relation "comparator result ≤ 0", which computes that same
  stable sort.
-/

/-- Campaign status enum from mockData.ts: 'active' | 'paused' | 'completed'. -/
inductive CampaignStatus
  | active
  | paused
  | completed
deriving DecidableEq, Repr

/-- String form of a status, as the source stores it. -/
def statusToString : CampaignStatus → String
  | .active => "active"
  | .paused => "paused"
  | .completed => "completed"

/-- CampaignData from mockData.ts. Numeric fields are Int; startDate and
endDate are Int day numbers standing for the ISO date strings. -/
structure CampaignData where
  id : String
  name : String
  client : String
  budget : Int
  spent : Int
  impressions : Int
  clicks : Int
  conversions : Int
  ctr : Int
  cpc : Int
  status : CampaignStatus
  startDate : Int
  endDate : Int
deriving DecidableEq, Repr

/-- Does the list start with the given pattern? Auxiliary for the
embedding of `String.prototype.includes`. -/
def startsWithList [DecidableEq α] : List α → List α → Bool
  | [], _ => true
  | _ :: _, [] => false
  | a :: l, b :: m => decide (a = b) && startsWithList l m

/-- Does the second list contain the first as a contiguous run?
Auxiliary for the embedding of `String.prototype.includes`. -/
def containsList [DecidableEq α] (needle : List α) : List α → Bool
  | [] => startsWithList needle []
  | a :: hay => startsWithList needle (a :: hay) || containsList needle hay

/-- Embedding of `hay.includes(needle)` on JavaScript strings. -/
def strIncludes (hay needle : String) : Bool :=
  containsList needle.toList hay.toList

/-- ASCII case folding of one character, as `toLowerCase` acts on the
character sets appearing in this code base. -/
def charToLower (c : Char) : Char :=
  if 'A' ≤ c ∧ c ≤ 'Z' then Char.ofNat (c.toNat + 32) else c

/-- Embedding of `s.toLowerCase()`. -/
def strToLower (s : String) : String :=
  ⟨s.data.map charToLower⟩

/-- SortKey = keyof CampaignData (DataTable.tsx). -/
inductive SortKey
  | id
  | name
  | client
  | budget
  | spent
  | impressions
  | clicks
  | conversions
  | ctr
  | cpc
  | status
  | startDate
  | endDate
deriving DecidableEq, Repr

/-- SortDirection = 'asc' | 'desc'; the source's `null` leg is
represented as `none` of `Option SortDirection`. -/
inductive SortDirection
  | asc
  | desc
deriving DecidableEq, Repr

/-- Value of a record field as the DataTable comparator sees it: a
string (typeof string) or a number (typeof number). The status field is
a string in the source; the date fields are compared as numbers here
(see the modelling conventions). -/
inductive FieldVal
  | str (s : String)
  | num (n : Int)
deriving DecidableEq, Repr

/-- Projection `a[sortKey]` from DataTable.tsx. -/
def getField (c : CampaignData) : SortKey → FieldVal
  | .id => .str c.id
  | .name => .str c.name
  | .client => .str c.client
  | .budget => .num c.budget
  | .spent => .num c.spent
  | .impressions => .num c.impressions
  | .clicks => .num c.clicks
  | .conversions => .num c.conversions
  | .ctr => .num c.ctr
  | .cpc => .num c.cpc
  | .status => .str (statusToString c.status)
  | .startDate => .num c.startDate
  | .endDate => .num c.endDate

/-- Ordering collapsed to the sign convention of a JS comparator. -/
def orderingToInt : Ordering → Int
  | .lt => -1
  | .eq => 0
  | .gt => 1

/-- Embedding of `aVal.localeCompare(bVal)` (as code-point comparison). -/
def strCompare (a b : String) : Int :=
  orderingToInt (compare a b)

/-- The comparator passed to `filtered.sort` in DataTable.tsx: string
fields via localeCompare, number fields via subtraction, negated for
descending; mismatched field shapes yield 0 (unreachable for a fixed
key, kept for faithfulness). -/
def fieldCompare (key : SortKey) (dir : SortDirection) (a b : CampaignData) : Int :=
  match getField a key, getField b key with
  | .str x, .str y =>
      if dir = SortDirection.asc then strCompare x y else -(strCompare x y)
  | .num x, .num y =>
      if dir = SortDirection.asc then x - y else -(x - y)
  | _, _ => 0

/-- "a is ordered no later than b" under the DataTable comparator:
comparator result ≤ 0. `Array.prototype.sort` stably sorts by this
relation. -/
def sortLE (key : SortKey) (dir : SortDirection) (a b : CampaignData) : Prop :=
  fieldCompare key dir a b ≤ 0

instance (key : SortKey) (dir : SortDirection) : DecidableRel (sortLE key dir) :=
  fun a b => inferInstanceAs (Decidable (fieldCompare key dir a b ≤ 0))

/-- The DataTable component's query state: search text, status selector,
sort key, tri-state sort direction and 1-based current page. -/
structure TableState where
  search : String
  statusFilter : String
  sortKey : SortKey
  sortDirection : Option SortDirection
  currentPage : Nat
deriving DecidableEq, Repr

/-- Initial useState values of DataTable.tsx: search '', statusFilter
'all', sortKey 'budget', sortDirection 'desc', currentPage 1. -/
def initState : TableState :=
  { search := ""
    statusFilter := "all"
    sortKey := SortKey.budget
    sortDirection := some SortDirection.desc
    currentPage := 1 }

/-- handleSort from DataTable.tsx: same key cycles asc, desc, null;
a different key becomes the sort key with direction asc. -/
def handleSort (st : TableState) (key : SortKey) : TableState :=
  if st.sortKey = key then
    { st with
      sortDirection :=
        match st.sortDirection with
        | some SortDirection.asc => some SortDirection.desc
        | some SortDirection.desc => none
        | none => some SortDirection.asc }
  else
    { st with sortKey := key, sortDirection := some SortDirection.asc }

/-- The filter predicate inside filteredAndSortedData: case-insensitive
substring match of the search text against name or client, and the
status selector ('all' passes everything). -/
def matchesRow (st : TableState) (item : CampaignData) : Bool :=
  (strIncludes (strToLower item.name) (strToLower st.search)
    || strIncludes (strToLower item.client) (strToLower st.search))
  && (st.statusFilter == "all" || statusToString item.status == st.statusFilter)

/-- filteredAndSortedData from DataTable.tsx: filter by search and
status, then sort with the field comparator unless the direction is
null. -/
def filteredAndSortedData (st : TableState) (data : List CampaignData) : List CampaignData :=
  let filtered := data.filter (matchesRow st)
  match st.sortDirection with
  | some dir => List.insertionSort (sortLE st.sortKey dir) filtered
  | none => filtered

/-- The slice taken by paginatedData: elements at
[(page-1)*pageSize, (page-1)*pageSize + pageSize), clipped to bounds,
exactly as `Array.prototype.slice`. -/
def slicePage (l : List α) (page pageSize : Nat) : List α :=
  (l.drop ((page - 1) * pageSize)).take pageSize

/-- paginatedData from DataTable.tsx: slice of the filtered and sorted
data at the current page. -/
def paginatedData (st : TableState) (pageSize : Nat) (data : List CampaignData) : List CampaignData :=
  slicePage (filteredAndSortedData st data) st.currentPage pageSize

/-- totalPages from DataTable.tsx: `Math.ceil(length / itemsPerPage)`,
as exact natural-number ceiling division. Note there is no lower bound
of one in the source. -/
def totalPages (len pageSize : Nat) : Nat :=
  (len + pageSize - 1) / pageSize

/-- Modelled from the spec: the spec's formula
`totalPages = max(1, ceil(length/pageSize))`, for comparison with the
source's `totalPages`. -/
def totalPagesSpec (len pageSize : Nat) : Nat :=
  max 1 ((len + pageSize - 1) / pageSize)

/-- User events the DataTable component can receive: the search input,
the status selector, a column-header click, and the four pagination
controls rendered by the component. -/
inductive TableEvent
  | setSearch (s : String)
  | setStatus (s : String)
  | sortClick (k : SortKey)
  | pageClick (n : Nat)
  | lastPageClick
  | prevClick
  | nextClick
deriving DecidableEq, Repr

/-- One user event applied to the component state, with the guards the
rendered controls impose: numbered page buttons exist for pages 1 to
min 5 totalPages, the trailing totalPages button only when
totalPages > 5, Previous is disabled on page 1 and Next is disabled when
currentPage equals totalPages. `none` means the control is absent or
disabled. Search, status and sort changes touch no other field — in
particular none of them resets currentPage. -/
def stepEvent (data : List CampaignData) (pageSize : Nat) (st : TableState) :
    TableEvent → Option TableState
  | .setSearch s => some { st with search := s }
  | .setStatus s => some { st with statusFilter := s }
  | .sortClick k => some (handleSort st k)
  | .pageClick n =>
      let tp := totalPages (filteredAndSortedData st data).length pageSize
      if 1 ≤ n && n ≤ min 5 tp then some { st with currentPage := n } else none
  | .lastPageClick =>
      let tp := totalPages (filteredAndSortedData st data).length pageSize
      if 5 < tp then some { st with currentPage := tp } else none
  | .prevClick =>
      if st.currentPage = 1 then none
      else some { st with currentPage := max 1 (st.currentPage - 1) }
  | .nextClick =>
      let tp := totalPages (filteredAndSortedData st data).length pageSize
      if st.currentPage = tp then none
      else some { st with currentPage := min tp (st.currentPage + 1) }

/-- Run a sequence of guarded events from a state; fails if any control
was absent or disabled. -/
def runEvents (data : List CampaignData) (pageSize : Nat) :
    List TableEvent → TableState → Option TableState
  | [], st => some st
  | e :: evs, st =>
      match stepEvent data pageSize st e with
      | some st₂ => runEvents data pageSize evs st₂
      | none => none

/-- Fixed CSV column order configured in exportService.ts. -/
def csvColumns : List String :=
  ["id", "name", "client", "budget", "spent",
   "impressions", "clicks", "conversions", "ctr", "cpc",
   "status", "startDate", "endDate"]

/-- One CSV cell: a string field or a numeric field of a record. -/
inductive CSVCell
  | str (s : String)
  | num (n : Int)
deriving DecidableEq, Repr

/-- Field lookup by column name, as Papa.unparse resolves the configured
columns against a record; an unknown column yields an empty cell. -/
def getCSVField (c : CampaignData) : String → CSVCell
  | "id" => .str c.id
  | "name" => .str c.name
  | "client" => .str c.client
  | "budget" => .num c.budget
  | "spent" => .num c.spent
  | "impressions" => .num c.impressions
  | "clicks" => .num c.clicks
  | "conversions" => .num c.conversions
  | "ctr" => .num c.ctr
  | "cpc" => .num c.cpc
  | "status" => .str (statusToString c.status)
  | "startDate" => .num c.startDate
  | "endDate" => .num c.endDate
  | _ => .str ""

/-- ExportService.exportToCSV: Papa.unparse with header and the fixed
column list — one header row, then one row per record in order, each row
listing the configured columns. -/
def exportToCSV (data : List CampaignData) : List (List CSVCell) :=
  (csvColumns.map CSVCell.str) :: data.map (fun c => csvColumns.map (getCSVField c))

/-- handleExportCSV from DataTable.tsx: exports filteredAndSortedData,
not paginatedData. -/
def handleExportCSV (st : TableState) (data : List CampaignData) : List (List CSVCell) :=
  exportToCSV (filteredAndSortedData st data)

/-- Date range of the advanced FilterState (source field names from/to;
Int day numbers here). -/
structure DateRange where
  fromDate : Int
  toDate : Int
deriving DecidableEq, Repr

/-- Budget range of the advanced FilterState, both bounds inclusive. -/
structure BudgetRange where
  min : Int
  max : Int
deriving DecidableEq, Repr

/-- FilterState from FilterPanel.tsx. -/
structure FilterState where
  dateRange : DateRange
  clients : List String
  status : List String
  budgetRange : BudgetRange
deriving DecidableEq, Repr

/-- The initial/default FilterState of FilterPanel.tsx: empty client and
status lists, budget range 0 to 100000, and the supplied date range
(last 30 days by default in the source). -/
def defaultFilters (d : DateRange) : FilterState :=
  { dateRange := d
    clients := []
    status := []
    budgetRange := { min := 0, max := 100000 } }

/-- handleFiltersChange from the dashboard page: client and status
filters apply only when their lists are nonempty, but the budget-range
and date-range filters are applied unconditionally. -/
def handleFiltersChange (filters : FilterState) (campaignData : List CampaignData) :
    List CampaignData :=
  let f₁ :=
    if 0 < filters.clients.length then
      campaignData.filter (fun c => filters.clients.contains c.client)
    else campaignData
  let f₂ :=
    if 0 < filters.status.length then
      f₁.filter (fun c => filters.status.contains (statusToString c.status))
    else f₁
  let f₃ :=
    f₂.filter (fun c =>
      decide (filters.budgetRange.min ≤ c.budget) && decide (c.budget ≤ filters.budgetRange.max))
  f₃.filter (fun c =>
    decide (filters.dateRange.fromDate ≤ c.startDate)
      && decide (c.startDate ≤ filters.dateRange.toDate))

/-- One registered live-feed callback: an identifier plus whether
invoking it throws. -/
structure Callback where
  cid : Nat
  throws : Bool
deriving DecidableEq, Repr

/-- State of the MockDataService singleton: the subscriber array and the
interval handle (none when idle). -/
structure MockDataServiceState where
  updateCallbacks : List Callback
  intervalId : Option Nat
deriving DecidableEq, Repr

/-- startRealTimeUpdates: clears any prior timer and installs the new
interval handle. -/
def startRealTimeUpdates (st : MockDataServiceState) (newId : Nat) : MockDataServiceState :=
  { st with intervalId := some newId }

/-- stopRealTimeUpdates: clears the timer if one is set; idempotent. -/
def stopRealTimeUpdates (st : MockDataServiceState) : MockDataServiceState :=
  { st with intervalId := none }

/-- Remove the first occurrence of an element, as
`indexOf` followed by `splice(index, 1)` does (no change when absent). -/
def removeFirst [DecidableEq α] (c : α) : List α → List α
  | [] => []
  | x :: l => if x = c then l else x :: removeFirst c l

/-- onUpdate: pushes the callback and returns the new state together
with the cleanup function, which removes exactly the first occurrence of
that callback from whatever state it is applied to. -/
def onUpdate (st : MockDataServiceState) (c : Callback) :
    MockDataServiceState × (MockDataServiceState → MockDataServiceState) :=
  ({ st with updateCallbacks := st.updateCallbacks ++ [c] },
   fun st₂ => { st₂ with updateCallbacks := removeFirst c st₂.updateCallbacks })

/-- The body of one tick, `updateCallbacks.forEach(callback =>
callback())`: callbacks run in order; there is no per-callback
try/catch, so the first throwing callback ends the loop and the
exception escapes the handler. Returns the identifiers invoked, in
order, and whether an exception escaped. -/
def runCallbacks : List Callback → List Nat × Bool
  | [] => ([], false)
  | c :: rest =>
      if c.throws then ([c.cid], true)
      else
        let r := runCallbacks rest
        (c.cid :: r.1, r.2)

/-- One timer tick of MockDataService: the handler runs the callbacks
and mutates nothing of the service state; in particular an exception
escaping a setInterval handler does not cancel the interval, so the
timer handle is unchanged. -/
def tick (st : MockDataServiceState) : MockDataServiceState × (List Nat × Bool) :=
  (st, runCallbacks st.updateCallbacks)

/-- A concrete campaign record: distinct budgets indexed by i, active
for i < 50 and paused otherwise, matching every default table filter. -/
def mkRec (i : Nat) : CampaignData :=
  { id := toString i
    name := "n"
    client := "c"
    budget := Int.ofNat i
    spent := 0
    impressions := 0
    clicks := 0
    conversions := 0
    ctr := 0
    cpc := 0
    status := if i < 50 then CampaignStatus.active else CampaignStatus.paused
    startDate := 0
    endDate := 0 }

/-- Sixty concrete records: 50 active, 10 paused. -/
def data60 : List CampaignData :=
  (List.range 60).map mkRec

/-- Clicking Next five times (6 pages of 60 records at page size 10),
then narrowing the status filter to the 50 active records. -/
def c3Trace : List TableEvent :=
  [TableEvent.nextClick, TableEvent.nextClick, TableEvent.nextClick,
   TableEvent.nextClick, TableEvent.nextClick, TableEvent.setStatus "active"]

/-- The state c3Trace reaches: page 6 with only 5 pages of filtered
data. -/
def c3State : TableState :=
  { search := ""
    statusFilter := "active"
    sortKey := SortKey.budget
    sortDirection := some SortDirection.desc
    currentPage := 6 }

/-- Next to page 2, then a search-text change. -/
def c5TraceSearch : List TableEvent :=
  [TableEvent.nextClick, TableEvent.setSearch "z"]

/-- State after c5TraceSearch: the page stayed at 2. -/
def c5StateSearch : TableState :=
  { search := "z"
    statusFilter := "all"
    sortKey := SortKey.budget
    sortDirection := some SortDirection.desc
    currentPage := 2 }

/-- Next to page 2, then a status-selector change. -/
def c5TraceStatus : List TableEvent :=
  [TableEvent.nextClick, TableEvent.setStatus "paused"]

/-- State after c5TraceStatus: the page stayed at 2. -/
def c5StateStatus : TableState :=
  { search := ""
    statusFilter := "paused"
    sortKey := SortKey.budget
    sortDirection := some SortDirection.desc
    currentPage := 2 }

/-- Next to page 2, then a click on a different sort column. -/
def c5TraceSort : List TableEvent :=
  [TableEvent.nextClick, TableEvent.sortClick SortKey.name]

/-- State after c5TraceSort: the page stayed at 2. -/
def c5StateSort : TableState :=
  { search := ""
    statusFilter := "all"
    sortKey := SortKey.name
    sortDirection := some SortDirection.asc
    currentPage := 2 }

/-- A subscriber whose callback throws on invocation. -/
def cbThrowing : Callback :=
  { cid := 0, throws := true }

/-- A well-behaved subscriber registered after the throwing one. -/
def cbQuiet : Callback :=
  { cid := 1, throws := false }

/-- Subscriber A of the two-subscriber scenario. -/
def cbA : Callback :=
  { cid := 0, throws := false }

/-- Subscriber B of the two-subscriber scenario. -/
def cbB : Callback :=
  { cid := 1, throws := false }

/-- A well-behaved subscriber registered before the throwing one. -/
def cbEarly : Callback :=
  { cid := 5, throws := false }

/-- Service state with a quiet, a throwing and a quiet subscriber, and a
running timer with handle 7. -/
def svcThree : MockDataServiceState :=
  { updateCallbacks := [cbEarly] ++ cbThrowing :: [cbQuiet], intervalId := some 7 }

/-- Service state with the throwing subscriber first and a running timer
with handle 1. -/
def svcTwo : MockDataServiceState :=
  { updateCallbacks := [cbThrowing, cbQuiet], intervalId := some 1 }

/-- Service state with no subscribers and a running timer with handle 1,
the start of the two-subscriber scenario. -/
def svcStart : MockDataServiceState :=
  { updateCallbacks := [], intervalId := some 1 }

/-- The scenario state after subscribing A: the pair of the new service
state and the unsubscribe handle for A. -/
def svcSubA : MockDataServiceState × (MockDataServiceState → MockDataServiceState) :=
  onUpdate svcStart cbA

/-- The scenario state after also subscribing B. -/
def svcSubB : MockDataServiceState × (MockDataServiceState → MockDataServiceState) :=
  onUpdate svcSubA.1 cbB

/-- The scenario state after invoking A's unsubscribe handle. -/
def svcAfterUnsubA : MockDataServiceState :=
  svcSubA.2 svcSubB.1

/-- A record whose budget exceeds the default budget-range maximum of
100000 while its start date lies inside the supplied date range. -/
def richCampaign : CampaignData :=
  { id := "r"
    name := "n"
    client := "c"
    budget := 150000
    spent := 0
    impressions := 0
    clicks := 0
    conversions := 0
    ctr := 0
    cpc := 0
    status := CampaignStatus.active
    startDate := 10
    endDate := 20 }

/-- A date range containing richCampaign's start date. -/
def c2Range : DateRange :=
  { fromDate := 0, toDate := 20 }

/-- A record with the smaller budget, for the initial-sort scenario. -/
def lowBudget : CampaignData :=
  mkRec 1

/-- A record with the larger budget, for the initial-sort scenario. -/
def highBudget : CampaignData :=
  mkRec 2

theorem le_totalPages_mul (len s : Nat) (hs : 1 ≤ s) : len ≤ totalPages len s * s := by
  unfold totalPages
  rw [Nat.mul_comm]
  have h := Nat.div_add_mod (len + s - 1) s
  have hr : (len + s - 1) % s < s := Nat.mod_lt _ (by omega)
  generalize hq : s * ((len + s - 1) / s) = t at h ⊢
  generalize (len + s - 1) % s = r at h hr
  omega

theorem totalPages_le_of_le_mul (len s m : Nat) (hs : 1 ≤ s) (h : len ≤ m * s) :
    totalPages len s ≤ m := by
  unfold totalPages
  have h2 : len + s - 1 < m * s + s := by
    generalize m * s = t at h ⊢
    omega
  have h3 : (len + s - 1) / s < m + 1 := by
    rw [Nat.div_lt_iff_lt_mul (by omega : 0 < s)]
    rw [Nat.add_mul, Nat.one_mul]
    exact h2
  omega

theorem pages_flatMap_eq {α : Type} (s : Nat) :
    ∀ (n : Nat) (l : List α), l.length ≤ n * s →
      ((List.range n).flatMap fun i => slicePage l (i + 1) s) = l := by
  intro n
  induction n with
  | zero =>
      intro l h
      have hl : l = [] := List.eq_nil_of_length_eq_zero (by omega)
      subst hl
      simp
  | succ n ih =>
      intro l h
      rw [List.range_succ_eq_map, List.flatMap_cons, List.flatMap_map]
      have e1 : slicePage l (0 + 1) s = l.take s := by
        simp [slicePage]
      have efun : (fun a => slicePage l (Nat.succ a + 1) s)
          = (fun i => slicePage (l.drop s) (i + 1) s) := by
        funext i
        show (l.drop ((Nat.succ i + 1 - 1) * s)).take s
          = ((l.drop s).drop ((i + 1 - 1) * s)).take s
        rw [List.drop_drop]
        have harith : (Nat.succ i + 1 - 1) * s = s + (i + 1 - 1) * s := by
          simp
          ring
        rw [harith]
      rw [e1, efun, ih (l.drop s) (by
        rw [List.length_drop]
        have e2 : (n + 1) * s = n * s + s := by ring
        rw [e2] at h
        generalize n * s = t at h ⊢
        omega)]
      exact List.take_append_drop s l

/-- C6 (confirmed): for every sequence and page size at least one, each
page slice has at most pageSize elements, and concatenating the slices
for pages 1..totalPages in order reconstructs the input sequence, each
element appearing exactly once. -/
theorem paginate_partitions_input {α : Type} (l : List α) (s p : Nat) (hs : 1 ≤ s) :
    (slicePage l p s).length ≤ s
    ∧ ((List.range (totalPages l.length s)).flatMap fun i => slicePage l (i + 1) s) = l := by
  constructor
  · simp [slicePage, List.length_take, List.length_drop]
  · exact pages_flatMap_eq s (totalPages l.length s) l (le_totalPages_mul l.length s hs)

/-- Witness for paginate_partitions_input at l = [0,1,2], s = 2, p = 2. -/
theorem paginate_partitions_input_witness :
    (slicePage ([0, 1, 2] : List Nat) 2 2).length ≤ 2
    ∧ ((List.range (totalPages ([0, 1, 2] : List Nat).length 2)).flatMap
        fun i => slicePage ([0, 1, 2] : List Nat) (i + 1) 2) = [0, 1, 2] :=
  paginate_partitions_input [0, 1, 2] 2 2 (by decide)

/-- C4 (amended): the table's total page count is the plain ceiling of
length over pageSize, with no lower bound of one: it is the least m with
len ≤ m * pageSize, it agrees with the spec formula max(1, ceil) only for
nonempty results, and an empty result set yields zero pages. -/
theorem total_pages_plain_ceiling (len s m : Nat) (hs : 1 ≤ s) (hm : len ≤ m * s)
    (hlen : 1 ≤ len) :
    totalPages 0 s = 0
    ∧ len ≤ totalPages len s * s
    ∧ totalPages len s ≤ m
    ∧ totalPages len s = totalPagesSpec len s := by
  refine ⟨?_, le_totalPages_mul len s hs, totalPages_le_of_le_mul len s m hs hm, ?_⟩
  · unfold totalPages
    exact Nat.div_eq_of_lt (by omega)
  · unfold totalPagesSpec
    have h1 : 1 ≤ totalPages len s := by
      unfold totalPages
      rw [Nat.one_le_div_iff (by omega : 0 < s)]
      omega
    exact (Nat.max_eq_right h1).symm

/-- Witness for total_pages_plain_ceiling at len = 50, s = 10, m = 7. -/
theorem total_pages_plain_ceiling_witness :
    totalPages 0 10 = 0
    ∧ 50 ≤ totalPages 50 10 * 10
    ∧ totalPages 50 10 ≤ 7
    ∧ totalPages 50 10 = totalPagesSpec 50 10 :=
  total_pages_plain_ceiling 50 10 7 (by decide) (by decide) (by decide)

/-- Counterexample to C4 as stated: on an empty result set the source
computes 0 total pages, while the claimed formula max(1, ceil) gives 1. -/
theorem total_pages_empty_cex :
    totalPages 0 10 = 0 ∧ totalPagesSpec 0 10 = 1
    ∧ totalPages 0 10 ≠ totalPagesSpec 0 10 := by
  decide

/-- C3 (amended): nothing clamps the current page: whenever the current
page exceeds the total page count, the visible slice is simply empty and
the displayed page remains the stored current page. -/
theorem page_overflow_shows_empty (st : TableState) (data : List CampaignData)
    (pageSize : Nat) (hs : 1 ≤ pageSize)
    (hover : totalPages (filteredAndSortedData st data).length pageSize < st.currentPage) :
    paginatedData st pageSize data = [] := by
  unfold paginatedData slicePage
  have hlen : (filteredAndSortedData st data).length ≤ (st.currentPage - 1) * pageSize := by
    have h1 : totalPages (filteredAndSortedData st data).length pageSize ≤ st.currentPage - 1 := by
      omega
    have h2 := le_totalPages_mul (filteredAndSortedData st data).length pageSize hs
    have h3 := Nat.mul_le_mul_right pageSize h1
    omega
  rw [List.drop_eq_nil_iff.mpr hlen]
  simp

/-- Witness for page_overflow_shows_empty: two matching records, page
size one, current page three. -/
theorem page_overflow_shows_empty_witness :
    paginatedData { initState with currentPage := 3 } 1 [mkRec 0, mkRec 1] = [] :=
  page_overflow_shows_empty { initState with currentPage := 3 } [mkRec 0, mkRec 1] 1
    (by decide) (by decide)

set_option maxRecDepth 8000 in
/-- Counterexample to C3 as stated: from the initial state over 60
records, five Next clicks reach page 6, then narrowing the status filter
leaves 50 filtered records (5 pages); the reached state keeps
currentPage 6 — it is not clamped to 5 — and shows an empty slice. -/
theorem page_overflow_not_clamped_cex :
    runEvents data60 10 c3Trace initState = some c3State
    ∧ c3State.currentPage = 6
    ∧ totalPages (filteredAndSortedData c3State data60).length 10 = 5
    ∧ c3State.currentPage ≠ 5
    ∧ paginatedData c3State 10 data60 = [] := by
  decide

/-- C7 (confirmed): clicking the current sort key cycles the direction
asc, desc, unsorted and back — three clicks restore the starting
direction and leave the key unchanged — while clicking a different key
sets that key with direction asc. -/
theorem sort_direction_cycle (st : TableState) (k k₂ : SortKey)
    (hk : st.sortKey = k) (hne : k₂ ≠ k) :
    (handleSort (handleSort (handleSort st k) k) k).sortDirection = st.sortDirection
    ∧ (handleSort (handleSort (handleSort st k) k) k).sortKey = st.sortKey
    ∧ (handleSort { st with sortDirection := some SortDirection.asc } k).sortDirection
        = some SortDirection.desc
    ∧ (handleSort { st with sortDirection := some SortDirection.desc } k).sortDirection = none
    ∧ (handleSort { st with sortDirection := none } k).sortDirection = some SortDirection.asc
    ∧ (handleSort st k₂).sortKey = k₂
    ∧ (handleSort st k₂).sortDirection = some SortDirection.asc := by
  subst hk
  rcases st with ⟨se, sf, sk, sd, cp⟩
  simp only [TableState.mk.injEq] at hne ⊢
  refine ⟨?_, ?_, ?_, ?_, ?_, ?_, ?_⟩
  · rcases sd with _ | d
    · simp [handleSort]
    · cases d <;> simp [handleSort]
  · rcases sd with _ | d
    · simp [handleSort]
    · cases d <;> simp [handleSort]
  · simp [handleSort]
  · simp [handleSort]
  · simp [handleSort]
  · simp [handleSort, Ne.symm hne]
  · simp [handleSort, Ne.symm hne]

/-- Witness for sort_direction_cycle at the initial state, k = budget,
k₂ = name. -/
theorem sort_direction_cycle_witness :
    (handleSort (handleSort (handleSort initState SortKey.budget) SortKey.budget)
        SortKey.budget).sortDirection = initState.sortDirection
    ∧ (handleSort (handleSort (handleSort initState SortKey.budget) SortKey.budget)
        SortKey.budget).sortKey = initState.sortKey
    ∧ (handleSort { initState with sortDirection := some SortDirection.asc }
        SortKey.budget).sortDirection = some SortDirection.desc
    ∧ (handleSort { initState with sortDirection := some SortDirection.desc }
        SortKey.budget).sortDirection = none
    ∧ (handleSort { initState with sortDirection := none }
        SortKey.budget).sortDirection = some SortDirection.asc
    ∧ (handleSort initState SortKey.name).sortKey = SortKey.name
    ∧ (handleSort initState SortKey.name).sortDirection = some SortDirection.asc :=
  sort_direction_cycle initState SortKey.budget SortKey.name rfl (by decide)

/-- C10 (confirmed): the initial table state sorts by budget descending
on page 1, so the initial display is already ordered by descending
budget for every input, and in general differs from the input order. -/
theorem initial_display_budget_desc :
    initState.sortKey = SortKey.budget
    ∧ initState.sortDirection = some SortDirection.desc
    ∧ initState.currentPage = 1
    ∧ (∀ data : List CampaignData,
        List.Sorted (fun a b : CampaignData => b.budget ≤ a.budget)
          (filteredAndSortedData initState data))
    ∧ filteredAndSortedData initState [lowBudget, highBudget] ≠ [lowBudget, highBudget] := by
  refine ⟨rfl, rfl, rfl, ?_, by decide⟩
  intro data
  haveI : IsTotal CampaignData (sortLE SortKey.budget SortDirection.desc) := by
    constructor
    intro a b
    simp [sortLE, fieldCompare, getField]
    omega
  haveI : IsTrans CampaignData (sortLE SortKey.budget SortDirection.desc) := by
    constructor
    intro a b c hab hbc
    simp [sortLE, fieldCompare, getField] at hab hbc ⊢
    omega
  have e : filteredAndSortedData initState data
      = List.insertionSort (sortLE SortKey.budget SortDirection.desc)
          (data.filter (matchesRow initState)) := rfl
  rw [e]
  have h := List.sorted_insertionSort (sortLE SortKey.budget SortDirection.desc)
    (data.filter (matchesRow initState))
  exact h.imp (fun hab => by
    simp [sortLE, fieldCompare, getField] at hab
    omega)

/-- C5 (amended): changing the search text, the status selector, or the
sort field leaves the current page unchanged — no path resets it to 1. -/
theorem filter_sort_changes_keep_page (data : List CampaignData) (pageSize : Nat)
    (st : TableState) (s t : String) (k : SortKey) :
    (stepEvent data pageSize st (TableEvent.setSearch s)).map TableState.currentPage
        = some st.currentPage
    ∧ (stepEvent data pageSize st (TableEvent.setStatus t)).map TableState.currentPage
        = some st.currentPage
    ∧ (stepEvent data pageSize st (TableEvent.sortClick k)).map TableState.currentPage
        = some st.currentPage := by
  refine ⟨rfl, rfl, ?_⟩
  show some (handleSort st k).currentPage = some st.currentPage
  unfold handleSort
  split <;> rfl

set_option maxRecDepth 8000 in
/-- Counterexample to C5 as stated: from the initial state over 60
records, Next reaches page 2; a subsequent search change, status change,
or sort-column click each leaves currentPage at 2 instead of resetting
it to 1. -/
theorem page_not_reset_cex :
    runEvents data60 10 c5TraceSearch initState = some c5StateSearch
    ∧ runEvents data60 10 c5TraceStatus initState = some c5StateStatus
    ∧ runEvents data60 10 c5TraceSort initState = some c5StateSort
    ∧ c5StateSearch.currentPage = 2
    ∧ c5StateStatus.currentPage = 2
    ∧ c5StateSort.currentPage = 2
    ∧ c5StateSearch.currentPage ≠ 1
    ∧ c5StateStatus.currentPage ≠ 1
    ∧ c5StateSort.currentPage ≠ 1 := by
  decide

/-- C8 (confirmed): the CSV export serializes the whole current
filtered-and-sorted result set — one header row in the fixed column
order plus exactly one data row per record — and is unaffected by the
current page. -/
theorem export_serializes_all_filtered_rows (st : TableState) (data : List CampaignData)
    (p : Nat) :
    (handleExportCSV st data).length = (filteredAndSortedData st data).length + 1
    ∧ (handleExportCSV st data).head? = some (csvColumns.map CSVCell.str)
    ∧ (handleExportCSV st data).tail
        = (filteredAndSortedData st data).map (fun c => csvColumns.map (getCSVField c))
    ∧ csvColumns = ["id", "name", "client", "budget", "spent", "impressions", "clicks",
        "conversions", "ctr", "cpc", "status", "startDate", "endDate"]
    ∧ handleExportCSV { st with currentPage := p } data = handleExportCSV st data := by
  refine ⟨?_, rfl, rfl, rfl, rfl⟩
  simp [handleExportCSV, exportToCSV]

/-- C2 (amended): the default/empty criteria is not a no-op: empty
client and status lists are skipped, but the budget range [0, 100000]
and the date range are applied unconditionally, so the default criteria
keeps exactly the records inside both ranges. -/
theorem default_filters_apply_budget_and_date (d : DateRange) (records : List CampaignData) :
    handleFiltersChange (defaultFilters d) records
      = records.filter (fun c =>
          (decide (d.fromDate ≤ c.startDate) && decide (c.startDate ≤ d.toDate))
          && (decide (0 ≤ c.budget) && decide (c.budget ≤ 100000))) := by
  unfold handleFiltersChange defaultFilters
  simp [List.filter_filter]

/-- Counterexample to C2 as stated: a record with budget 150000 and
start date inside the supplied date range is removed by the default
criteria, so filtering with the default criteria is not the identity. -/
theorem default_filters_not_identity_cex :
    handleFiltersChange (defaultFilters c2Range) [richCampaign] = []
    ∧ handleFiltersChange (defaultFilters c2Range) [richCampaign] ≠ [richCampaign] := by
  decide

/-- C1 (amended): a throwing subscriber callback ends the tick early:
callbacks registered before it still run, the throwing callback itself
runs, every callback registered after it is skipped in that tick, the
exception escapes the handler, and the interval timer stays installed
(the tick mutates no service state). -/
theorem throwing_callback_aborts_tick (pre post : List Callback) (c : Callback) (tid : Nat)
    (hpre : ∀ x ∈ pre, x.throws = false) (hc : c.throws = true) :
    runCallbacks (pre ++ c :: post) = (pre.map Callback.cid ++ [c.cid], true)
    ∧ (tick { updateCallbacks := pre ++ c :: post, intervalId := some tid }).1
        = { updateCallbacks := pre ++ c :: post, intervalId := some tid } := by
  have key : ∀ (l : List Callback), (∀ x ∈ l, x.throws = false) →
      runCallbacks (l ++ c :: post) = (l.map Callback.cid ++ [c.cid], true) := by
    intro l
    induction l with
    | nil =>
        intro _
        simp [runCallbacks, hc]
    | cons a l ih =>
        intro h
        have ha : a.throws = false := h a (by simp)
        have ih2 := ih (fun x hx => h x (by simp [hx]))
        simp [runCallbacks, ha, ih2]
  exact ⟨key pre hpre, rfl⟩

/-- Witness for throwing_callback_aborts_tick: one quiet callback before
the throwing one, one after; the tick invokes ids 5 then 0 only, and the
timer handle 7 survives. -/
theorem throwing_callback_aborts_tick_witness :
    runCallbacks ([cbEarly] ++ cbThrowing :: [cbQuiet])
      = ([cbEarly].map Callback.cid ++ [cbThrowing.cid], true)
    ∧ (tick { updateCallbacks := [cbEarly] ++ cbThrowing :: [cbQuiet], intervalId := some 7 }).1
        = { updateCallbacks := [cbEarly] ++ cbThrowing :: [cbQuiet], intervalId := some 7 } :=
  throwing_callback_aborts_tick [cbEarly] [cbQuiet] cbThrowing 7 (by decide) (by decide)

/-- Counterexample to C1 as stated: with a throwing callback registered
first and a quiet one second, the tick invokes only id 0; the quiet
callback id 1 is registered but not invoked in that tick (while the
timer does keep running). -/
theorem throwing_callback_skips_others_cex :
    (tick svcTwo).2.1 = [0]
    ∧ cbQuiet.cid ∉ (tick svcTwo).2.1
    ∧ (tick svcTwo).1.intervalId = some 1 := by
  decide

/-- C9 (confirmed): an unsubscribe handle removes exactly its own
callback — every other callback keeps its registration count — and in
the two-subscriber scenario one tick invokes A and B once each, then
after unsubscribing A a second tick invokes only B, for totals A = 1 and
B = 2. -/
theorem unsubscribe_removes_exactly_that_callback (l : List Callback) (c d : Callback) :
    (removeFirst c l).count d = (if d = c then l.count d - 1 else l.count d)
    ∧ (tick svcSubB.1).2.1 = [cbA.cid, cbB.cid]
    ∧ svcAfterUnsubA.updateCallbacks = [cbB]
    ∧ (tick svcAfterUnsubA).2.1 = [cbB.cid]
    ∧ ((tick svcSubB.1).2.1 ++ (tick svcAfterUnsubA).2.1).count cbA.cid = 1
    ∧ ((tick svcSubB.1).2.1 ++ (tick svcAfterUnsubA).2.1).count cbB.cid = 2 := by
  refine ⟨?_, by decide, by decide, by decide, by decide, by decide⟩
  induction l with
  | nil => simp [removeFirst]
  | cons x l ih =>
      by_cases hxc : x = c
      · subst hxc
        by_cases hdc : d = x
        · subst hdc
          simp [removeFirst, List.count_cons]
        · simp [removeFirst, List.count_cons, hdc, Ne.symm hdc]
      · by_cases hdc : d = c
        · subst hdc
          simp [removeFirst, hxc, List.count_cons, ih, Ne.symm hxc]
        · simp [removeFirst, hxc, List.count_cons, ih, hdc, Ne.symm hdc]
